import Mathlib

/-!
# StreamedTable (src/ee/storage/streamedtable.cpp)

A shallow embedding of the VoltDB export table `StreamedTable` and proofs about
its append / undo / position protocol.

Conventions of the embedding

* `m_sequenceNo` is an `int64_t`: it is an `Int`, and `m_sequenceNo++` and
  `m_sequenceNo--` wrap around at `INT64_MAX` and `INT64_MIN` (`wrapInt64`), as
  the compiled code does.  Transaction ids and timestamps are only passed on and
  are `Int`; the tuple counters belong to the `Table` base class, whose
  declaration is outside the source file, and are `Int`; `size_t` values (marks,
  byte counts) are `Nat`.
* `m_wrapper` is a nullable owning pointer: `Option (TupleStreamWrapper Tuple)`.
  A member call through a NULL `m_wrapper` is reported as
  `Failure.NullPointerDereference`.
* `assert` is modelled as checked (a build without `NDEBUG`).
* `TupleStreamWrapper`, `ExecutorContext`, `UndoQuantum`, `Pool`,
  `StreamedTableUndoAction` and `TableTuple` are declared in headers that are
  not part of the source file.  The wrapper is represented by the history of
  the calls made on it, and the values it hands back are taken as a parameter
  (`WrapperResults`); the tuple type is a type parameter.
* A member function that can fail returns a `Result`: the outcome together with
  the table state it leaves behind.
-/

namespace voltdb

/-! ## Collaborators declared outside the source file -/

/-- Modelled from the spec: the operation kind `TupleStreamWrapper::Type`
(INSERT or DELETE), declared outside the source file. -/
inductive StreamRowType where
  | INSERT
  | DELETE
  deriving DecidableEq

/-- Modelled from the spec: one member call made on a `TupleStreamWrapper`, with
the arguments the source file passes, in the order it passes them. -/
inductive WrapperCall (Tuple : Type) where
  | setDefaultCapacity (capacity : Nat)
  | appendTuple (lastCommittedTxnId currentTxnId seqNo timestamp : Int)
      (tuple : Tuple) (type : StreamRowType)
  | periodicFlush (timeInMillis lastCommittedTxnId currentTxnId : Int)
  | setSignatureAndGeneration (signature : String) (generation : Int)
  | rollbackTo (mark : Nat)
  | setBytesUsed (count : Nat)
  deriving DecidableEq

/-- Modelled from the spec: the class `TupleStreamWrapper` (the spec's
StreamBuffer) is declared outside the source file.  It is represented by its
constructor arguments and the list of member calls made on it so far, oldest
first. -/
structure TupleStreamWrapper (Tuple : Type) where
  m_partitionId : Int
  m_siteId : Int
  calls : List (WrapperCall Tuple)
  deriving DecidableEq

/-- Modelled from the spec: the values a `TupleStreamWrapper` hands back
(`appendTuple` returns the mark at which the record was written, `bytesUsed`
and `allocatedByteCount` report counters).  They may depend in any way on the
wrapper's history and on the arguments. -/
structure WrapperResults (Tuple : Type) where
  appendTuple : TupleStreamWrapper Tuple → Int → Int → Int → Int → Tuple → StreamRowType → Nat
  bytesUsed : TupleStreamWrapper Tuple → Nat
  allocatedByteCount : TupleStreamWrapper Tuple → Int

/-- Modelled from the spec: the undo action `StreamedTableUndoAction(table, mark)`
(the spec's UndoBinding), holding the table it was created by (its address) and
the mark to roll back to. -/
structure StreamedTableUndoAction where
  m_table : Nat
  m_mark : Nat
  deriving DecidableEq

/-- Modelled from the spec: the undo quantum's scoped allocator `Pool`; only
the number of `allocate` calls is kept. -/
structure Pool where
  allocations : Nat
  deriving DecidableEq

/-- Modelled from the spec: the active `UndoQuantum`, with its data pool and
the undo actions registered so far, oldest first. -/
structure UndoQuantum where
  m_dataPool : Pool
  m_undoActions : List StreamedTableUndoAction
  deriving DecidableEq

/-- Modelled from the spec: the `ExecutorContext` the table points to, with the
identifiers it supplies and the current undo quantum. -/
structure ExecutorContext where
  m_partitionId : Int
  m_siteId : Int
  m_lastCommittedTxnId : Int
  m_currentTxnId : Int
  m_currentTxnTimestamp : Int
  m_undoQuantum : UndoQuantum
  deriving DecidableEq

/-- Modelled from the spec: the exception type tag passed to
`SerializableEEException`; the source file uses this one only. -/
inductive VoltEEExceptionType where
  | VOLT_EE_EXCEPTION_TYPE_EEEXCEPTION
  deriving DecidableEq

/-- The ways a member function can fail to return. -/
inductive Failure where
  | SerializableEEException (type : VoltEEExceptionType) (message : String)
  | FatalException (message : String)
  | AssertionFailure (expression : String)
  | NullPointerDereference
  deriving DecidableEq

/-- The kind of a failure, without its message. -/
inductive FailureKind where
  | SerializableEEException (type : VoltEEExceptionType)
  | FatalException
  | AssertionFailure
  | NullPointerDereference
  deriving DecidableEq

/-- Outcome of a member function that can fail, with the state left behind. -/
structure Result (σ α : Type) where
  outcome : Except Failure α
  state : σ

/-! ## The table -/

/-- State of a `StreamedTable`: its address (`this`), the two tuple counters of
the `Table` base class, the executor context it points to, the owned wrapper
(NULL when export is disabled) and the sequence counter. -/
structure StreamedTable (Tuple : Type) where
  addr : Nat
  m_tupleCount : Int
  m_usedTupleCount : Int
  m_executorContext : ExecutorContext
  m_wrapper : Option (TupleStreamWrapper Tuple)
  m_sequenceNo : Int
  deriving DecidableEq

variable {Tuple : Type}

/-- Largest `int64_t` value, 2^63 - 1. -/
def INT64_MAX : Int := 9223372036854775807

/-- Smallest `int64_t` value, -2^63. -/
def INT64_MIN : Int := -9223372036854775808

/-- The `int64_t` value that holds the arithmetic result `x`: two's-complement
wrap-around into the range from `INT64_MIN` to `INT64_MAX`. -/
def wrapInt64 (x : Int) : Int :=
  (x + 9223372036854775808) % 18446744073709551616 - 9223372036854775808

/-- Kind of a failure. -/
def Failure.kind : Failure → FailureKind
  | .SerializableEEException type _ => .SerializableEEException type
  | .FatalException _ => .FatalException
  | .AssertionFailure _ => .AssertionFailure
  | .NullPointerDereference => .NullPointerDereference

/-- The failure of an outcome, if it is one. -/
def failureOf {α : Type} : Except Failure α → Option Failure
  | .error e => some e
  | .ok _ => none

/-- Modelled from the spec: the macro `throwFatalException(msg)`, defined
outside the source file; it raises a fatal exception and does not return. -/
def throwFatalException {σ α : Type} (s : σ) (message : String) : Result σ α :=
  ⟨.error (.FatalException message), s⟩

/-- Modelled from the spec: `TupleStreamWrapper::appendTuple` returns the mark of
the record; the call is added to the history. -/
def TupleStreamWrapper.appendTuple (R : WrapperResults Tuple) (w : TupleStreamWrapper Tuple)
    (lastCommittedTxnId currentTxnId seqNo timestamp : Int) (tuple : Tuple)
    (type : StreamRowType) : Nat × TupleStreamWrapper Tuple :=
  (R.appendTuple w lastCommittedTxnId currentTxnId seqNo timestamp tuple type,
   { w with calls := w.calls ++
      [.appendTuple lastCommittedTxnId currentTxnId seqNo timestamp tuple type] })

/-- Modelled from the spec: `TupleStreamWrapper::periodicFlush`, added to the
history. -/
def TupleStreamWrapper.periodicFlush (w : TupleStreamWrapper Tuple)
    (timeInMillis lastCommittedTxnId currentTxnId : Int) : TupleStreamWrapper Tuple :=
  { w with calls := w.calls ++ [.periodicFlush timeInMillis lastCommittedTxnId currentTxnId] }

/-- Modelled from the spec: `TupleStreamWrapper::setSignatureAndGeneration`,
added to the history. -/
def TupleStreamWrapper.setSignatureAndGeneration (w : TupleStreamWrapper Tuple)
    (signature : String) (generation : Int) : TupleStreamWrapper Tuple :=
  { w with calls := w.calls ++ [.setSignatureAndGeneration signature generation] }

/-- Modelled from the spec: `TupleStreamWrapper::rollbackTo`, added to the
history. -/
def TupleStreamWrapper.rollbackTo (w : TupleStreamWrapper Tuple) (mark : Nat) :
    TupleStreamWrapper Tuple :=
  { w with calls := w.calls ++ [.rollbackTo mark] }

/-- Modelled from the spec: `TupleStreamWrapper::setBytesUsed`, added to the
history. -/
def TupleStreamWrapper.setBytesUsed (w : TupleStreamWrapper Tuple) (count : Nat) :
    TupleStreamWrapper Tuple :=
  { w with calls := w.calls ++ [.setBytesUsed count] }

/-- Modelled from the spec: `TupleStreamWrapper::setDefaultCapacity`, added to
the history. -/
def TupleStreamWrapper.setDefaultCapacity (w : TupleStreamWrapper Tuple) (capacity : Nat) :
    TupleStreamWrapper Tuple :=
  { w with calls := w.calls ++ [.setDefaultCapacity capacity] }

/-- Modelled from the spec: `Pool::allocate`, one more allocation from the undo
quantum's pool. -/
def Pool.allocate (p : Pool) : Pool :=
  { p with allocations := p.allocations + 1 }

/-- Modelled from the spec: `UndoQuantum::registerUndoAction` appends the action
to the quantum's undo list. -/
def UndoQuantum.registerUndoAction (uq : UndoQuantum) (ua : StreamedTableUndoAction) :
    UndoQuantum :=
  { uq with m_undoActions := uq.m_undoActions ++ [ua] }

/-- Modelled from the spec: `ExecutorContext::currentTxnId()`. -/
def ExecutorContext.currentTxnId (c : ExecutorContext) : Int := c.m_currentTxnId

/-- Modelled from the spec: `ExecutorContext::currentTxnTimestamp()`. -/
def ExecutorContext.currentTxnTimestamp (c : ExecutorContext) : Int := c.m_currentTxnTimestamp

/-- Modelled from the spec: `ExecutorContext::getCurrentUndoQuantum()`; an undo
quantum is always active. -/
def ExecutorContext.getCurrentUndoQuantum (c : ExecutorContext) : UndoQuantum := c.m_undoQuantum

/-- The constructor `StreamedTable::StreamedTable(bool exportEnabled)`, placed
at address `addr` with `ctx` the executor context singleton.  The base class
`Table(1)` starts both tuple counters at zero. -/
def StreamedTable.ctor (addr : Nat) (ctx : ExecutorContext) (exportEnabled : Bool) :
    StreamedTable Tuple :=
  let t : StreamedTable Tuple :=
    { addr := addr, m_tupleCount := 0, m_usedTupleCount := 0, m_executorContext := ctx,
      m_wrapper := none, m_sequenceNo := 0 }
  if exportEnabled then
    { t with m_wrapper := some ⟨ctx.m_partitionId, ctx.m_siteId, []⟩ }
  else t

/-- `StreamedTable::createForTest`; the table is constructed with the executor
context singleton `singleton`, and the argument `ctx` is not used. -/
def StreamedTable.createForTest (addr : Nat) (singleton : ExecutorContext)
    (wrapperBufSize : Nat) (_ctx : ExecutorContext) : StreamedTable Tuple :=
  let st : StreamedTable Tuple := StreamedTable.ctor addr singleton true
  { st with m_wrapper := st.m_wrapper.map fun w => w.setDefaultCapacity wrapperBufSize }

/-- `StreamedTable::iterator`. -/
def StreamedTable.iterator (TableIterator : Type) (t : StreamedTable Tuple) :
    Result (StreamedTable Tuple) TableIterator :=
  ⟨.error (.SerializableEEException .VOLT_EE_EXCEPTION_TYPE_EEEXCEPTION
    "May not iterate a streamed table."), t⟩

/-- `StreamedTable::makeIterator`. -/
def StreamedTable.makeIterator (TableIterator : Type) (t : StreamedTable Tuple) :
    Result (StreamedTable Tuple) TableIterator :=
  ⟨.error (.SerializableEEException .VOLT_EE_EXCEPTION_TYPE_EEEXCEPTION
    "May not iterate a streamed table."), t⟩

/-- `StreamedTable::deleteAllTuples`. -/
def StreamedTable.deleteAllTuples (t : StreamedTable Tuple) (_freeAllocatedStrings : Bool) :
    Result (StreamedTable Tuple) Unit :=
  ⟨.error (.SerializableEEException .VOLT_EE_EXCEPTION_TYPE_EEEXCEPTION
    "May not delete all tuples of a streamed table."), t⟩

/-- `StreamedTable::allocateNextBlock`. -/
def StreamedTable.allocateNextBlock (TBPtr : Type) (t : StreamedTable Tuple) :
    Result (StreamedTable Tuple) TBPtr :=
  ⟨.error (.SerializableEEException .VOLT_EE_EXCEPTION_TYPE_EEEXCEPTION
    "May not use block alloc interface with streamed tables."), t⟩

/-- `StreamedTable::nextFreeTuple`. -/
def StreamedTable.nextFreeTuple (t : StreamedTable Tuple) (_tuple : Tuple) :
    Result (StreamedTable Tuple) Unit :=
  ⟨.error (.SerializableEEException .VOLT_EE_EXCEPTION_TYPE_EEEXCEPTION
    "May not use nextFreeTuple with streamed tables."), t⟩

/-- `StreamedTable::insertTuple`; `m_sequenceNo++` hands the old value to
`appendTuple` and stores the incremented one. -/
def StreamedTable.insertTuple (R : WrapperResults Tuple) (t : StreamedTable Tuple)
    (source : Tuple) : Bool × StreamedTable Tuple :=
  match t.m_wrapper with
  | some wrapper =>
    let (mark, wrapper1) := wrapper.appendTuple R t.m_executorContext.m_lastCommittedTxnId
      t.m_executorContext.currentTxnId t.m_sequenceNo t.m_executorContext.currentTxnTimestamp
      source .INSERT
    let uq := t.m_executorContext.getCurrentUndoQuantum
    let pool := uq.m_dataPool.allocate
    let ua : StreamedTableUndoAction := ⟨t.addr, mark⟩
    let uq1 := ({ uq with m_dataPool := pool }).registerUndoAction ua
    (true, { t with
      m_wrapper := some wrapper1
      m_sequenceNo := wrapInt64 (t.m_sequenceNo + 1)
      m_tupleCount := t.m_tupleCount + 1
      m_usedTupleCount := t.m_usedTupleCount + 1
      m_executorContext := { t.m_executorContext with m_undoQuantum := uq1 } })
  | none => (true, t)

/-- `StreamedTable::updateTupleWithSpecificIndexes`. -/
def StreamedTable.updateTupleWithSpecificIndexes {TableIndex : Type} (t : StreamedTable Tuple)
    (_targetTupleToUpdate _sourceTupleWithNewValues : Tuple)
    (_indexesToUpdate : List TableIndex) : Result (StreamedTable Tuple) Bool :=
  throwFatalException t "May not update a streamed table."

/-- `StreamedTable::deleteTuple`; `m_sequenceNo++` hands the old value to
`appendTuple` and stores the incremented one. -/
def StreamedTable.deleteTuple (R : WrapperResults Tuple) (t : StreamedTable Tuple)
    (tuple : Tuple) (_deleteAllocatedStrings : Bool) : Bool × StreamedTable Tuple :=
  match t.m_wrapper with
  | some wrapper =>
    let (mark, wrapper1) := wrapper.appendTuple R t.m_executorContext.m_lastCommittedTxnId
      t.m_executorContext.currentTxnId t.m_sequenceNo t.m_executorContext.currentTxnTimestamp
      tuple .DELETE
    let uq := t.m_executorContext.getCurrentUndoQuantum
    let pool := uq.m_dataPool.allocate
    let ua : StreamedTableUndoAction := ⟨t.addr, mark⟩
    let uq1 := ({ uq with m_dataPool := pool }).registerUndoAction ua
    (true, { t with
      m_wrapper := some wrapper1
      m_sequenceNo := wrapInt64 (t.m_sequenceNo + 1)
      m_tupleCount := t.m_tupleCount + 1
      m_usedTupleCount := t.m_usedTupleCount + 1
      m_executorContext := { t.m_executorContext with m_undoQuantum := uq1 } })
  | none => (true, t)

/-- `StreamedTable::loadTuplesFrom`. -/
def StreamedTable.loadTuplesFrom {SerializeInput PoolPtr : Type} (t : StreamedTable Tuple)
    (_serialize_in : SerializeInput) (_stringPool : PoolPtr) :
    Result (StreamedTable Tuple) Unit :=
  ⟨.error (.SerializableEEException .VOLT_EE_EXCEPTION_TYPE_EEEXCEPTION
    "May not update a streamed table."), t⟩

/-- `StreamedTable::flushOldTuples`. -/
def StreamedTable.flushOldTuples (t : StreamedTable Tuple) (timeInMillis : Int) :
    StreamedTable Tuple :=
  match t.m_wrapper with
  | some wrapper =>
    { t with m_wrapper := some (wrapper.periodicFlush timeInMillis
        t.m_executorContext.m_lastCommittedTxnId t.m_executorContext.currentTxnId) }
  | none => t

/-- `StreamedTable::setSignatureAndGeneration`. -/
def StreamedTable.setSignatureAndGeneration (t : StreamedTable Tuple) (signature : String)
    (generation : Int) : StreamedTable Tuple :=
  match t.m_wrapper with
  | some wrapper =>
    { t with m_wrapper := some (wrapper.setSignatureAndGeneration signature generation) }
  | none => t

/-- `StreamedTable::undo`. -/
def StreamedTable.undo (t : StreamedTable Tuple) (mark : Nat) : StreamedTable Tuple :=
  match t.m_wrapper with
  | some wrapper =>
    { t with
      m_wrapper := some (wrapper.rollbackTo mark)
      m_sequenceNo := wrapInt64 (t.m_sequenceNo - 1) }
  | none => t

/-- `StreamedTable::allocatedBlockCount`. -/
def StreamedTable.allocatedBlockCount (_t : StreamedTable Tuple) : Nat := 0

/-- `StreamedTable::allocatedTupleMemory`. -/
def StreamedTable.allocatedTupleMemory (R : WrapperResults Tuple) (t : StreamedTable Tuple) :
    Int :=
  match t.m_wrapper with
  | some wrapper => R.allocatedByteCount wrapper
  | none => 0

/-- `StreamedTable::getExportStreamPositions`; the two reference parameters are
returned as the pair `(seqNo, streamBytesUsed)`.  `m_wrapper` is dereferenced
without a NULL test. -/
def StreamedTable.getExportStreamPositions (R : WrapperResults Tuple)
    (t : StreamedTable Tuple) : Result (StreamedTable Tuple) (Int × Nat) :=
  let seqNo := t.m_sequenceNo
  match t.m_wrapper with
  | some wrapper => ⟨.ok (seqNo, R.bytesUsed wrapper), t⟩
  | none => ⟨.error .NullPointerDereference, t⟩

/-- `StreamedTable::setExportStreamPositions`.  The assertion is checked first;
`m_sequenceNo` is assigned before `m_wrapper` is dereferenced (without a NULL
test). -/
def StreamedTable.setExportStreamPositions (t : StreamedTable Tuple) (seqNo : Int)
    (streamBytesUsed : Nat) : Result (StreamedTable Tuple) Unit :=
  if t.m_sequenceNo = 0 then
    let t1 := { t with m_sequenceNo := seqNo }
    match t1.m_wrapper with
    | some wrapper => ⟨.ok (), { t1 with m_wrapper := some (wrapper.setBytesUsed streamBytesUsed) }⟩
    | none => ⟨.error .NullPointerDereference, t1⟩
  else
    ⟨.error (.AssertionFailure "m_sequenceNo == 0"), t⟩

/-! ## Call sequences and observations -/

/-- One call of the append / undo / flush protocol, with its arguments. -/
inductive Call (Tuple : Type) where
  | insertTuple (source : Tuple)
  | deleteTuple (tuple : Tuple) (deleteAllocatedStrings : Bool)
  | undo (mark : Nat)
  | flushOldTuples (timeInMillis : Int)
  deriving DecidableEq

/-- Performs one call on the table and keeps the resulting state. -/
def Call.apply (R : WrapperResults Tuple) (t : StreamedTable Tuple) :
    Call Tuple → StreamedTable Tuple
  | .insertTuple source => (t.insertTuple R source).2
  | .deleteTuple tuple deleteAllocatedStrings => (t.deleteTuple R tuple deleteAllocatedStrings).2
  | .undo mark => t.undo mark
  | .flushOldTuples timeInMillis => t.flushOldTuples timeInMillis

/-- Performs the calls in order, first call first. -/
def run (R : WrapperResults Tuple) (t : StreamedTable Tuple) (cs : List (Call Tuple)) :
    StreamedTable Tuple :=
  cs.foldl (Call.apply R) t

/-- Whether the call is an append (`insertTuple` or `deleteTuple`). -/
def Call.isAppend : Call Tuple → Bool
  | .insertTuple _ => true
  | .deleteTuple _ _ => true
  | _ => false

/-- Whether the call is `undo`. -/
def Call.isUndo : Call Tuple → Bool
  | .undo _ => true
  | _ => false

/-- Number of `insertTuple` and `deleteTuple` calls in a sequence. -/
def appends (cs : List (Call Tuple)) : Nat := cs.countP Call.isAppend

/-- Number of `undo` calls in a sequence. -/
def undos (cs : List (Call Tuple)) : Nat := cs.countP Call.isUndo

/-- The calls made so far on the table's wrapper; none when there is no wrapper. -/
def StreamedTable.wrapperCalls (t : StreamedTable Tuple) : List (WrapperCall Tuple) :=
  match t.m_wrapper with
  | some wrapper => wrapper.calls
  | none => []

/-- The undo actions registered with the current undo quantum. -/
def StreamedTable.undoActions (t : StreamedTable Tuple) : List StreamedTableUndoAction :=
  t.m_executorContext.getCurrentUndoQuantum.m_undoActions

/-- The sequence number passed by a wrapper call, when it is an `appendTuple`. -/
def WrapperCall.appendSeqNo : WrapperCall Tuple → Option Int
  | .appendTuple _ _ seqNo _ _ _ => some seqNo
  | _ => none

/-- The sequence numbers passed to `appendTuple`, in call order. -/
def appendSeqNos (calls : List (WrapperCall Tuple)) : List Int :=
  calls.filterMap WrapperCall.appendSeqNo

/-- The sequence number `getExportStreamPositions` reports, when it returns. -/
def StreamedTable.reportedSeqNo (R : WrapperResults Tuple) (t : StreamedTable Tuple) :
    Option Int :=
  match (t.getExportStreamPositions R).outcome with
  | .ok (seqNo, _) => some seqNo
  | .error _ => none

/-- The byte count `getExportStreamPositions` reports, when it returns. -/
def StreamedTable.reportedBytesUsed (R : WrapperResults Tuple) (t : StreamedTable Tuple) :
    Option Nat :=
  match (t.getExportStreamPositions R).outcome with
  | .ok (_, streamBytesUsed) => some streamBytesUsed
  | .error _ => none

/-! ## Concrete tables and call sequences -/

/-- A wrapper whose marks and byte counts are the length of its call history. -/
def sampleResults : WrapperResults Nat where
  appendTuple := fun w _ _ _ _ _ _ => w.calls.length
  bytesUsed := fun w => w.calls.length
  allocatedByteCount := fun w => w.calls.length

/-- An executor context in transaction 12 with an empty undo quantum. -/
def sampleContext : ExecutorContext where
  m_partitionId := 3
  m_siteId := 1
  m_lastCommittedTxnId := 11
  m_currentTxnId := 12
  m_currentTxnTimestamp := 1000
  m_undoQuantum := ⟨⟨0⟩, []⟩

/-- A freshly constructed export-enabled table. -/
def sampleEnabled : StreamedTable Nat := StreamedTable.ctor 64 sampleContext true

/-- A freshly constructed table with export disabled. -/
def sampleDisabled : StreamedTable Nat := StreamedTable.ctor 64 sampleContext false

/-- An export-enabled table after an insert and a delete. -/
def sampleTwoAppends : StreamedTable Nat :=
  run sampleResults sampleEnabled [.insertTuple 7, .deleteTuple 8 false]

/-- The table after the first append of the round-trip example. -/
def roundTripAppended : StreamedTable Nat := (sampleEnabled.insertTuple sampleResults 7).2

/-- The round-trip example after rolling the append back to its mark 0. -/
def roundTripUndone : StreamedTable Nat := roundTripAppended.undo 0

/-- The round-trip example after the next append. -/
def roundTripNext : StreamedTable Nat := (roundTripUndone.insertTuple sampleResults 8).2

/-- A table that produced a record and then rolled it back. -/
def sampleAppendedAndUndone : StreamedTable Nat :=
  run sampleResults sampleEnabled [.insertTuple 7, .undo 0]

/-- The executor context singleton as it stands at a later call: the table keeps
pointing to it while the engine moves on to other transactions. -/
def StreamedTable.withContext (t : StreamedTable Tuple) (ctx : ExecutorContext) :
    StreamedTable Tuple :=
  { t with m_executorContext := ctx }

/-- A fresh export-enabled table that adopted sequence number `INT64_MAX`. -/
def sampleAtMax : StreamedTable Nat :=
  (sampleEnabled.setExportStreamPositions 9223372036854775807 0).state

/-- A fresh export-enabled table that adopted sequence number `INT64_MIN`. -/
def sampleAtMin : StreamedTable Nat :=
  (sampleEnabled.setExportStreamPositions (-9223372036854775808) 0).state

/-- The table `sampleAtMax` after one insert. -/
def boundaryAppended : StreamedTable Nat := (sampleAtMax.insertTuple sampleResults 7).2

/-- The table `boundaryAppended` after rolling the insert back. -/
def boundaryUndone : StreamedTable Nat := boundaryAppended.undo 0

/-- A fresh export-enabled table that adopted position (5, 0): it has made no
append. -/
def sampleAdoptedOnce : StreamedTable Nat := (sampleEnabled.setExportStreamPositions 5 0).state

/-- A later executor context: transaction 20, with one action of another table
on its undo quantum. -/
def laterContext : ExecutorContext where
  m_partitionId := 3
  m_siteId := 1
  m_lastCommittedTxnId := 19
  m_currentTxnId := 20
  m_currentTxnTimestamp := 3000
  m_undoQuantum := ⟨⟨1⟩, [⟨128, 40⟩]⟩

/-- Three appends and a flush, no undo. -/
def sampleCalls : List (Call Nat) :=
  [.insertTuple 7, .flushOldTuples 2000, .deleteTuple 8 true, .insertTuple 9]

/-! ## The int64 range -/

/-- A value inside the `int64_t` range is stored unchanged. -/
theorem wrapInt64_eq_self (x : Int) (hmin : INT64_MIN ≤ x) (hmax : x ≤ INT64_MAX) :
    wrapInt64 x = x := by
  simp only [wrapInt64, INT64_MIN, INT64_MAX] at *
  omega

/-! ## Append and undo on a single state -/

/-- C2 fails as stated: on the export-enabled table that adopted `INT64_MIN` as
its sequence number, `undo` leaves the counter at `INT64_MAX`, not one lower. -/
theorem C2_counterexample :
    sampleAtMin.m_wrapper = some ⟨3, 1, [.setBytesUsed 0]⟩ ∧
    sampleAtMin.m_sequenceNo = -9223372036854775808 ∧
    (sampleAtMin.undo 0).m_sequenceNo = 9223372036854775807 ∧
    (sampleAtMin.undo 0).m_sequenceNo ≠ sampleAtMin.m_sequenceNo - 1 := by
  refine ⟨rfl, rfl, ?_, ?_⟩ <;> decide

/-- C2 (amended): on an export-enabled table `undo mark` makes exactly one
wrapper call, `rollbackTo mark`, for every mark and every state; it registers no
undo action, allocates nothing from the pool and leaves both tuple counters
unchanged; and it lowers the sequence counter by exactly one whenever the
counter is above `INT64_MIN`.  On a table without wrapper `undo mark` changes
nothing. -/
theorem C2_undo_contract (t : StreamedTable Tuple) (mark : Nat) :
    (∀ wrapper : TupleStreamWrapper Tuple, t.m_wrapper = some wrapper →
      (t.undo mark).wrapperCalls = t.wrapperCalls ++ [.rollbackTo mark] ∧
      (INT64_MIN < t.m_sequenceNo → t.m_sequenceNo ≤ INT64_MAX →
        (t.undo mark).m_sequenceNo = t.m_sequenceNo - 1) ∧
      (t.undo mark).m_executorContext = t.m_executorContext ∧
      (t.undo mark).m_tupleCount = t.m_tupleCount ∧
      (t.undo mark).m_usedTupleCount = t.m_usedTupleCount ∧
      (t.undo mark).addr = t.addr) ∧
    (t.m_wrapper = none → t.undo mark = t) := by
  constructor
  · intro wrapper h
    simp [StreamedTable.undo, StreamedTable.wrapperCalls, TupleStreamWrapper.rollbackTo, h]
    intro hmin hmax
    apply wrapInt64_eq_self <;> simp only [INT64_MIN, INT64_MAX] at * <;> omega
  · intro h
    simp [StreamedTable.undo, h]

/-- Witness for C2: rolling back to the first mark after two appends lowers the
counter from 2 to 1; on the disabled table nothing changes. -/
theorem C2_undo_contract_witness :
    (sampleTwoAppends.m_wrapper = some ⟨3, 1,
        [.appendTuple 11 12 0 1000 7 .INSERT, .appendTuple 11 12 1 1000 8 .DELETE]⟩ ∧
      INT64_MIN < sampleTwoAppends.m_sequenceNo ∧ sampleTwoAppends.m_sequenceNo ≤ INT64_MAX ∧
      (sampleTwoAppends.undo 0).wrapperCalls = sampleTwoAppends.wrapperCalls ++ [.rollbackTo 0] ∧
      (sampleTwoAppends.undo 0).m_sequenceNo = 2 - 1 ∧
      (sampleTwoAppends.undo 0).m_executorContext = sampleTwoAppends.m_executorContext ∧
      (sampleTwoAppends.undo 0).m_tupleCount = 2 ∧
      (sampleTwoAppends.undo 0).m_usedTupleCount = 2 ∧
      (sampleTwoAppends.undo 0).addr = 64) ∧
    (sampleDisabled.m_wrapper = none ∧ sampleDisabled.undo 0 = sampleDisabled) :=
  ⟨⟨rfl, by decide, by decide,
    ((C2_undo_contract sampleTwoAppends 0).1 _ rfl).1,
    ((C2_undo_contract sampleTwoAppends 0).1 _ rfl).2.1 (by decide) (by decide),
    ((C2_undo_contract sampleTwoAppends 0).1 _ rfl).2.2⟩,
   ⟨rfl, (C2_undo_contract sampleDisabled 0).2 rfl⟩⟩

/-! ## Position adoption on a single state -/

/-- C6: on an export-enabled table `setExportStreamPositions seqNo bytes` fails,
with an assertion failure, exactly when the sequence counter is non-zero; when
it fails the whole table state (counter and wrapper included) is unchanged, so
`setBytesUsed` was not called; when it succeeds the counter is `seqNo` (and
`setBytesUsed bytes` was the one wrapper call made). -/
theorem C6_adoption_guard (t : StreamedTable Tuple) (wrapper : TupleStreamWrapper Tuple)
    (h : t.m_wrapper = some wrapper) (seqNo : Int) (streamBytesUsed : Nat) :
    ((∃ e, (t.setExportStreamPositions seqNo streamBytesUsed).outcome = .error e) ↔
      t.m_sequenceNo ≠ 0) ∧
    (∀ e, (t.setExportStreamPositions seqNo streamBytesUsed).outcome = .error e →
      e = .AssertionFailure "m_sequenceNo == 0" ∧
      (t.setExportStreamPositions seqNo streamBytesUsed).state = t) ∧
    ((t.setExportStreamPositions seqNo streamBytesUsed).outcome = .ok () →
      (t.setExportStreamPositions seqNo streamBytesUsed).state.m_sequenceNo = seqNo ∧
      (t.setExportStreamPositions seqNo streamBytesUsed).state.wrapperCalls =
        t.wrapperCalls ++ [.setBytesUsed streamBytesUsed]) := by
  by_cases hz : t.m_sequenceNo = 0
  · simp [StreamedTable.setExportStreamPositions, StreamedTable.wrapperCalls,
      TupleStreamWrapper.setBytesUsed, h, hz]
  · simp [StreamedTable.setExportStreamPositions, StreamedTable.wrapperCalls, h, hz]

/-- Witness for C6: after two appends (counter 2) adoption fails and changes
nothing; on the fresh table (counter 0) it succeeds and sets the counter. -/
theorem C6_adoption_guard_witness :
    (sampleTwoAppends.m_wrapper = some ⟨3, 1,
        [.appendTuple 11 12 0 1000 7 .INSERT, .appendTuple 11 12 1 1000 8 .DELETE]⟩ ∧
      sampleTwoAppends.m_sequenceNo ≠ 0 ∧
      (∃ e, (sampleTwoAppends.setExportStreamPositions 5 9).outcome = .error e) ∧
      (sampleTwoAppends.setExportStreamPositions 5 9).state = sampleTwoAppends) ∧
    (sampleEnabled.m_wrapper = some ⟨3, 1, []⟩ ∧
      (sampleEnabled.setExportStreamPositions 5 9).outcome = .ok () ∧
      (sampleEnabled.setExportStreamPositions 5 9).state.m_sequenceNo = 5 ∧
      (sampleEnabled.setExportStreamPositions 5 9).state.wrapperCalls =
        [] ++ [.setBytesUsed 9]) :=
  ⟨⟨rfl, by decide,
    (C6_adoption_guard sampleTwoAppends _ rfl 5 9).1.2 (by decide),
    ((C6_adoption_guard sampleTwoAppends _ rfl 5 9).2.1 _ rfl).2⟩,
   ⟨rfl, rfl, (C6_adoption_guard sampleEnabled _ rfl 5 9).2.2 rfl⟩⟩

/-! ## Tables without a wrapper -/

/-- C8: constructing with export disabled leaves the table without wrapper, and
on every table without wrapper `insertTuple` and `deleteTuple` return true,
`flushOldTuples` returns, each of them leaves the whole state (sequence counter,
tuple counters, absent wrapper, executor context with its undo quantum)
unchanged, and `allocatedTupleMemory` is 0 before and after. -/
theorem C8_disabled_frame (R : WrapperResults Tuple) (t : StreamedTable Tuple)
    (h : t.m_wrapper = none) (tuple : Tuple) (deleteAllocatedStrings : Bool)
    (timeInMillis : Int) (addr : Nat) (ctx : ExecutorContext) :
    (StreamedTable.ctor addr ctx false : StreamedTable Tuple).m_wrapper = none ∧
    t.insertTuple R tuple = (true, t) ∧
    t.deleteTuple R tuple deleteAllocatedStrings = (true, t) ∧
    t.flushOldTuples timeInMillis = t ∧
    t.allocatedTupleMemory R = 0 ∧
    (t.insertTuple R tuple).2.allocatedTupleMemory R = 0 ∧
    (t.deleteTuple R tuple deleteAllocatedStrings).2.allocatedTupleMemory R = 0 ∧
    (t.flushOldTuples timeInMillis).allocatedTupleMemory R = 0 := by
  simp [StreamedTable.ctor, StreamedTable.insertTuple, StreamedTable.deleteTuple,
    StreamedTable.flushOldTuples, StreamedTable.allocatedTupleMemory, h]

/-- Witness for C8 on the freshly constructed disabled table. -/
theorem C8_disabled_frame_witness :
    sampleDisabled.m_wrapper = none ∧
    ((StreamedTable.ctor 64 sampleContext false : StreamedTable Nat).m_wrapper = none ∧
    sampleDisabled.insertTuple sampleResults 7 = (true, sampleDisabled) ∧
    sampleDisabled.deleteTuple sampleResults 7 true = (true, sampleDisabled) ∧
    sampleDisabled.flushOldTuples 2000 = sampleDisabled ∧
    sampleDisabled.allocatedTupleMemory sampleResults = 0 ∧
    (sampleDisabled.insertTuple sampleResults 7).2.allocatedTupleMemory sampleResults = 0 ∧
    (sampleDisabled.deleteTuple sampleResults 7 true).2.allocatedTupleMemory sampleResults = 0 ∧
    (sampleDisabled.flushOldTuples 2000).allocatedTupleMemory sampleResults = 0) :=
  ⟨rfl, C8_disabled_frame sampleResults sampleDisabled rfl 7 true 2000 64 sampleContext⟩

/-- C9: on a table constructed with export disabled, `getExportStreamPositions`
and `setExportStreamPositions` both dereference the NULL `m_wrapper`: neither
returns, and `setExportStreamPositions` has by then overwritten the sequence
counter. -/
theorem C9_disabled_positions_null_dereference (R : WrapperResults Tuple) (addr : Nat)
    (ctx : ExecutorContext) (seqNo : Int) (streamBytesUsed : Nat) :
    ((StreamedTable.ctor addr ctx false : StreamedTable Tuple).getExportStreamPositions R).outcome
      = .error .NullPointerDereference ∧
    (StreamedTable.ctor addr ctx false : StreamedTable Tuple).reportedSeqNo R = none ∧
    (StreamedTable.ctor addr ctx false : StreamedTable Tuple).reportedBytesUsed R = none ∧
    ((StreamedTable.ctor addr ctx false : StreamedTable Tuple).setExportStreamPositions
      seqNo streamBytesUsed).outcome = .error .NullPointerDereference ∧
    ((StreamedTable.ctor addr ctx false : StreamedTable Tuple).setExportStreamPositions
      seqNo streamBytesUsed).state.m_sequenceNo = seqNo := by
  simp [StreamedTable.ctor, StreamedTable.getExportStreamPositions,
    StreamedTable.setExportStreamPositions, StreamedTable.reportedSeqNo,
    StreamedTable.reportedBytesUsed]

/-! ## Unsupported entry points -/

/-- C10: `updateTupleWithSpecificIndexes` raises a `FatalException`, while its
sibling `loadTuplesFrom`, with the same message, and `iterator` throw a
`SerializableEEException` of type `VOLT_EE_EXCEPTION_TYPE_EEEXCEPTION`: the
unsupported entry points do not all fail with the same kind of error. -/
theorem C10_update_fatal_exception :
    (sampleEnabled.updateTupleWithSpecificIndexes 1 2 ([] : List Unit)).outcome =
      .error (.FatalException "May not update a streamed table.") ∧
    (sampleEnabled.loadTuplesFrom () ()).outcome =
      .error (.SerializableEEException .VOLT_EE_EXCEPTION_TYPE_EEEXCEPTION
        "May not update a streamed table.") ∧
    (failureOf (sampleEnabled.iterator Unit).outcome).map Failure.kind =
      some (.SerializableEEException .VOLT_EE_EXCEPTION_TYPE_EEEXCEPTION) ∧
    (failureOf (sampleEnabled.updateTupleWithSpecificIndexes 1 2
      ([] : List Unit)).outcome).map Failure.kind = some .FatalException ∧
    (failureOf (sampleEnabled.updateTupleWithSpecificIndexes 1 2
      ([] : List Unit)).outcome).map Failure.kind ≠
      (failureOf (sampleEnabled.loadTuplesFrom () ()).outcome).map Failure.kind ∧
    (failureOf (sampleEnabled.updateTupleWithSpecificIndexes 1 2
      ([] : List Unit)).outcome).map Failure.kind ≠
      (failureOf (sampleEnabled.iterator Unit).outcome).map Failure.kind := by
  refine ⟨rfl, rfl, rfl, rfl, ?_, ?_⟩ <;>
  simp [StreamedTable.iterator, StreamedTable.loadTuplesFrom,
    StreamedTable.updateTupleWithSpecificIndexes, throwFatalException, failureOf, Failure.kind]

/-- Each unsupported entry point fails for every argument and every table
state, with or without wrapper, and leaves the table state unchanged;
`iterator`, `makeIterator`, `deleteAllTuples`, `allocateNextBlock`,
`nextFreeTuple` and `loadTuplesFrom` throw a `SerializableEEException` of type
`VOLT_EE_EXCEPTION_TYPE_EEEXCEPTION`, and `updateTupleWithSpecificIndexes`
raises a `FatalException`. -/
theorem unsupported_entry_points_fail (TableIterator TBPtr TableIndex SerializeInput PoolPtr : Type)
    (t : StreamedTable Tuple) (freeAllocatedStrings : Bool) (tuple target source : Tuple)
    (indexesToUpdate : List TableIndex) (serialize_in : SerializeInput)
    (stringPool : PoolPtr) :
    ((∃ m, (t.iterator TableIterator).outcome =
        .error (.SerializableEEException .VOLT_EE_EXCEPTION_TYPE_EEEXCEPTION m)) ∧
      (t.iterator TableIterator).state = t) ∧
    ((∃ m, (t.makeIterator TableIterator).outcome =
        .error (.SerializableEEException .VOLT_EE_EXCEPTION_TYPE_EEEXCEPTION m)) ∧
      (t.makeIterator TableIterator).state = t) ∧
    ((∃ m, (t.deleteAllTuples freeAllocatedStrings).outcome =
        .error (.SerializableEEException .VOLT_EE_EXCEPTION_TYPE_EEEXCEPTION m)) ∧
      (t.deleteAllTuples freeAllocatedStrings).state = t) ∧
    ((∃ m, (t.allocateNextBlock TBPtr).outcome =
        .error (.SerializableEEException .VOLT_EE_EXCEPTION_TYPE_EEEXCEPTION m)) ∧
      (t.allocateNextBlock TBPtr).state = t) ∧
    ((∃ m, (t.nextFreeTuple tuple).outcome =
        .error (.SerializableEEException .VOLT_EE_EXCEPTION_TYPE_EEEXCEPTION m)) ∧
      (t.nextFreeTuple tuple).state = t) ∧
    ((∃ m, (t.loadTuplesFrom serialize_in stringPool).outcome =
        .error (.SerializableEEException .VOLT_EE_EXCEPTION_TYPE_EEEXCEPTION m)) ∧
      (t.loadTuplesFrom serialize_in stringPool).state = t) ∧
    ((∃ m, (t.updateTupleWithSpecificIndexes target source indexesToUpdate).outcome =
        .error (.FatalException m)) ∧
      (t.updateTupleWithSpecificIndexes target source indexesToUpdate).state = t) := by
  simp [StreamedTable.iterator, StreamedTable.makeIterator, StreamedTable.deleteAllTuples,
    StreamedTable.allocateNextBlock, StreamedTable.nextFreeTuple,
    StreamedTable.loadTuplesFrom, StreamedTable.updateTupleWithSpecificIndexes,
    throwFatalException]

/-! ## Call sequences -/

/-- The constructor with export enabled yields a table with a wrapper and
counter zero. -/
theorem ctor_enabled (addr : Nat) (ctx : ExecutorContext) :
    (StreamedTable.ctor addr ctx true : StreamedTable Tuple).m_wrapper.isSome = true ∧
    (StreamedTable.ctor addr ctx true : StreamedTable Tuple).m_sequenceNo = 0 ∧
    (StreamedTable.ctor addr ctx true : StreamedTable Tuple).wrapperCalls = [] := by
  simp [StreamedTable.ctor, StreamedTable.wrapperCalls]

/-- Every call keeps the wrapper. -/
theorem apply_isSome (R : WrapperResults Tuple) (t : StreamedTable Tuple) (c : Call Tuple)
    (h : t.m_wrapper.isSome = true) : (c.apply R t).m_wrapper.isSome = true := by
  obtain ⟨w, hw⟩ := Option.isSome_iff_exists.mp h
  cases c <;>
    simp [Call.apply, StreamedTable.insertTuple, StreamedTable.deleteTuple,
      StreamedTable.undo, StreamedTable.flushOldTuples, hw]

/-- Effect of one call on the sequence counter of an export-enabled table, away
from the ends of the int64 range. -/
theorem apply_m_sequenceNo (R : WrapperResults Tuple) (t : StreamedTable Tuple)
    (c : Call Tuple) (h : t.m_wrapper.isSome = true)
    (hmin : INT64_MIN < t.m_sequenceNo) (hmax : t.m_sequenceNo < INT64_MAX) :
    (c.apply R t).m_sequenceNo =
      t.m_sequenceNo + (if c.isAppend then 1 else 0) - (if c.isUndo then 1 else 0) := by
  obtain ⟨w, hw⟩ := Option.isSome_iff_exists.mp h
  cases c <;>
    simp [Call.apply, Call.isAppend, Call.isUndo, StreamedTable.insertTuple,
      StreamedTable.deleteTuple, StreamedTable.undo, StreamedTable.flushOldTuples, hw] <;>
    (apply wrapInt64_eq_self <;> simp only [INT64_MIN, INT64_MAX] at * <;> omega)

/-- A sequence of calls keeps the wrapper. -/
theorem run_isSome (R : WrapperResults Tuple) (cs : List (Call Tuple)) :
    ∀ t : StreamedTable Tuple, t.m_wrapper.isSome = true →
      (run R t cs).m_wrapper.isSome = true := by
  induction cs with
  | nil => intro t h; simpa [run] using h
  | cons c cs ih =>
    intro t h
    have := ih (c.apply R t) (apply_isSome R t c h)
    simpa [run] using this

/-- Effect of a sequence of calls on the sequence counter of an export-enabled
table whose counter is further from both ends of the int64 range than the
sequence is long: appends count up, undos count down. -/
theorem run_m_sequenceNo (R : WrapperResults Tuple) (cs : List (Call Tuple)) :
    ∀ t : StreamedTable Tuple, t.m_wrapper.isSome = true →
      INT64_MIN + (cs.length : Int) ≤ t.m_sequenceNo →
      t.m_sequenceNo + (cs.length : Int) ≤ INT64_MAX →
      (run R t cs).m_sequenceNo = t.m_sequenceNo + (appends cs : Int) - (undos cs : Int) := by
  induction cs with
  | nil => intro t _ _ _; simp [run, appends, undos]
  | cons c cs ih =>
    intro t h hmin hmax
    simp only [List.length_cons, Nat.cast_add, Nat.cast_one] at hmin hmax
    have h2 := apply_m_sequenceNo R t c h (by omega) (by omega)
    have h3 : run R t (c :: cs) = run R (c.apply R t) cs := by simp [run]
    have hstep : t.m_sequenceNo - 1 ≤ (c.apply R t).m_sequenceNo ∧
        (c.apply R t).m_sequenceNo ≤ t.m_sequenceNo + 1 := by
      rw [h2]; cases c <;> simp [Call.isAppend, Call.isUndo] <;> omega
    have h1 := ih (c.apply R t) (apply_isSome R t c h) (by omega) (by omega)
    rw [h3, h1, h2]
    simp only [appends, undos, List.countP_cons]
    cases c <;> simp [Call.isAppend, Call.isUndo] <;> ring

/-- The appends and the undos of a sequence are among its calls. -/
theorem appends_undos_le_length (cs : List (Call Tuple)) :
    appends cs ≤ cs.length ∧ undos cs ≤ cs.length :=
  ⟨List.countP_le_length _, List.countP_le_length _⟩

/-- C3 fails as stated: on a fresh export-enabled table one insert returns mark
0 and makes the reported sequence number S = 1; after `undo 0` the reported
number is S - 1 = 0, but the next append hands sequence number 0 to
`appendTuple`, not S = 1.  And on the table that adopted `INT64_MAX`, the
insert makes the reported number S = `INT64_MIN`, and after `undo 0` the
reported number is `INT64_MAX`, not S - 1. -/
theorem C3_counterexample :
    (roundTripAppended.undoActions = [⟨64, 0⟩] ∧
      roundTripAppended.reportedSeqNo sampleResults = some 1 ∧
      roundTripUndone.reportedSeqNo sampleResults = some (1 - 1) ∧
      roundTripNext.wrapperCalls =
        roundTripUndone.wrapperCalls ++ [.appendTuple 11 12 0 1000 8 .INSERT] ∧
      (appendSeqNos roundTripNext.wrapperCalls).getLast? ≠ some 1) ∧
    (boundaryAppended.reportedSeqNo sampleResults = some (-9223372036854775808) ∧
      boundaryUndone.reportedSeqNo sampleResults = some 9223372036854775807 ∧
      boundaryUndone.reportedSeqNo sampleResults ≠ some (-9223372036854775808 - 1)) := by
  refine ⟨⟨rfl, rfl, rfl, rfl, ?_⟩, ?_, ?_, ?_⟩ <;> decide

/-- C3 (amended): on an export-enabled table whose sequence counter is below
`INT64_MAX`, after one append after which the reported sequence number is S,
`undo M` (for the mark M the append returned, and indeed for every mark) makes
the reported number S - 1, the next append hands S - 1 (the number of the
rolled-back record) to `appendTuple`, and after it the reported number is S
again. -/
theorem C3_round_trip (R : WrapperResults Tuple) (t : StreamedTable Tuple)
    (wrapper : TupleStreamWrapper Tuple) (h : t.m_wrapper = some wrapper)
    (hmin : INT64_MIN ≤ t.m_sequenceNo) (hmax : t.m_sequenceNo < INT64_MAX)
    (first next : Call Tuple) (hfirst : first.isAppend = true) (hnext : next.isAppend = true)
    (S : Int) (hS : (first.apply R t).reportedSeqNo R = some S) (M : Nat) :
    ((first.apply R t).undo M).reportedSeqNo R = some (S - 1) ∧
    (∃ lastCommittedTxnId currentTxnId timestamp tuple type,
      (next.apply R ((first.apply R t).undo M)).wrapperCalls =
        ((first.apply R t).undo M).wrapperCalls ++
          [.appendTuple lastCommittedTxnId currentTxnId (S - 1) timestamp tuple type]) ∧
    (next.apply R ((first.apply R t).undo M)).reportedSeqNo R = some S := by
  have e1 : wrapInt64 (t.m_sequenceNo + 1) = t.m_sequenceNo + 1 := by
    apply wrapInt64_eq_self <;> simp only [INT64_MIN, INT64_MAX] at * <;> omega
  have e2 : wrapInt64 t.m_sequenceNo = t.m_sequenceNo := by
    apply wrapInt64_eq_self <;> simp only [INT64_MIN, INT64_MAX] at * <;> omega
  cases first <;> simp [Call.isAppend] at hfirst <;>
  cases next <;> simp [Call.isAppend] at hnext <;>
  simp [Call.apply, StreamedTable.insertTuple, StreamedTable.deleteTuple, StreamedTable.undo,
    StreamedTable.reportedSeqNo, StreamedTable.getExportStreamPositions,
    StreamedTable.wrapperCalls, TupleStreamWrapper.appendTuple,
    TupleStreamWrapper.rollbackTo, h, e1] at hS ⊢ <;>
  subst hS <;> simp [e1, e2]

/-- Witness for C3: insert, roll back to its mark 0, then delete; S = 1. -/
theorem C3_round_trip_witness :
    sampleEnabled.m_wrapper = some ⟨3, 1, []⟩ ∧
    INT64_MIN ≤ sampleEnabled.m_sequenceNo ∧ sampleEnabled.m_sequenceNo < INT64_MAX ∧
    (Call.insertTuple 7 : Call Nat).isAppend = true ∧
    (Call.deleteTuple 8 false : Call Nat).isAppend = true ∧
    ((Call.insertTuple 7).apply sampleResults sampleEnabled).reportedSeqNo sampleResults =
      some 1 ∧
    ((((Call.insertTuple 7).apply sampleResults sampleEnabled).undo 0).reportedSeqNo
        sampleResults = some (1 - 1) ∧
      (∃ lastCommittedTxnId currentTxnId timestamp tuple type,
        ((Call.deleteTuple 8 false).apply sampleResults
          (((Call.insertTuple 7).apply sampleResults sampleEnabled).undo 0)).wrapperCalls =
          (((Call.insertTuple 7).apply sampleResults sampleEnabled).undo 0).wrapperCalls ++
            [.appendTuple lastCommittedTxnId currentTxnId (1 - 1) timestamp tuple type]) ∧
      ((Call.deleteTuple 8 false).apply sampleResults
        (((Call.insertTuple 7).apply sampleResults sampleEnabled).undo 0)).reportedSeqNo
        sampleResults = some 1) :=
  ⟨rfl, by decide, by decide, rfl, rfl, rfl,
   C3_round_trip sampleResults sampleEnabled ⟨3, 1, []⟩ rfl (by decide) (by decide)
     (.insertTuple 7) (.deleteTuple 8 false) rfl rfl 1 rfl 0⟩

/-- C5 fails as stated: adopting S0 = `INT64_MAX` on a fresh export-enabled
table succeeds, but after the following insert `getExportStreamPositions`
reports `INT64_MIN`, not S0 + 1; and on the table that has adopted position
(5, 0), which has made no append, `setExportStreamPositions` fails. -/
theorem C5_counterexample :
    ((sampleEnabled.setExportStreamPositions 9223372036854775807 0).outcome = .ok () ∧
      boundaryAppended.wrapperCalls =
        [.setBytesUsed 0, .appendTuple 11 12 9223372036854775807 1000 7 .INSERT] ∧
      boundaryAppended.reportedSeqNo sampleResults = some (-9223372036854775808) ∧
      boundaryAppended.reportedSeqNo sampleResults ≠ some (9223372036854775807 + 1)) ∧
    (sampleAdoptedOnce.m_wrapper = some ⟨3, 1, [.setBytesUsed 0]⟩ ∧
      appendSeqNos sampleAdoptedOnce.wrapperCalls = [] ∧
      (sampleAdoptedOnce.setExportStreamPositions 7 0).outcome =
        .error (.AssertionFailure "m_sequenceNo == 0")) := by
  refine ⟨⟨rfl, rfl, ?_, ?_⟩, rfl, rfl, rfl⟩ <;> decide

/-- C5 (amended): on an export-enabled table whose sequence counter is 0 (as on
a table with zero local appends on which no undo and no earlier adoption has
moved the counter), for every S0 in the int64 range below `INT64_MAX` and every
B0, `setExportStreamPositions S0 B0` succeeds and its one wrapper call is
`setBytesUsed B0`; a following `insertTuple` or `deleteTuple`, whatever the
executor context is by then, hands sequence number S0 to `appendTuple`, after
which `getExportStreamPositions` reports S0 + 1. -/
theorem C5_position_adoption (R : WrapperResults Tuple) (t : StreamedTable Tuple)
    (wrapper : TupleStreamWrapper Tuple) (h : t.m_wrapper = some wrapper)
    (hzero : t.m_sequenceNo = 0) (S0 : Int) (hmin : INT64_MIN ≤ S0) (hmax : S0 < INT64_MAX)
    (B0 : Nat) (ctx : ExecutorContext) (tuple : Tuple) (deleteAllocatedStrings : Bool) :
    (t.setExportStreamPositions S0 B0).outcome = .ok () ∧
    (t.setExportStreamPositions S0 B0).state.wrapperCalls =
      t.wrapperCalls ++ [.setBytesUsed B0] ∧
    (((t.setExportStreamPositions S0 B0).state.withContext ctx).insertTuple R
        tuple).2.wrapperCalls =
      (t.setExportStreamPositions S0 B0).state.wrapperCalls ++
        [.appendTuple ctx.m_lastCommittedTxnId ctx.currentTxnId S0 ctx.currentTxnTimestamp
          tuple .INSERT] ∧
    (((t.setExportStreamPositions S0 B0).state.withContext ctx).insertTuple R
        tuple).2.reportedSeqNo R = some (S0 + 1) ∧
    (((t.setExportStreamPositions S0 B0).state.withContext ctx).deleteTuple R tuple
        deleteAllocatedStrings).2.wrapperCalls =
      (t.setExportStreamPositions S0 B0).state.wrapperCalls ++
        [.appendTuple ctx.m_lastCommittedTxnId ctx.currentTxnId S0 ctx.currentTxnTimestamp
          tuple .DELETE] ∧
    (((t.setExportStreamPositions S0 B0).state.withContext ctx).deleteTuple R tuple
        deleteAllocatedStrings).2.reportedSeqNo R = some (S0 + 1) := by
  have e1 : wrapInt64 (S0 + 1) = S0 + 1 := by
    apply wrapInt64_eq_self <;> simp only [INT64_MIN, INT64_MAX] at * <;> omega
  simp [StreamedTable.setExportStreamPositions, StreamedTable.withContext,
    StreamedTable.insertTuple, StreamedTable.deleteTuple, StreamedTable.wrapperCalls,
    StreamedTable.reportedSeqNo, StreamedTable.getExportStreamPositions,
    TupleStreamWrapper.setBytesUsed, TupleStreamWrapper.appendTuple, h, hzero, e1]

/-- Witness for C5: the fresh export-enabled table adopts (5, 9); the next
insert, in a later transaction, is written with 5 and 6 is reported. -/
theorem C5_position_adoption_witness :
    sampleEnabled.m_wrapper = some ⟨3, 1, []⟩ ∧
    sampleEnabled.m_sequenceNo = 0 ∧
    INT64_MIN ≤ (5 : Int) ∧ (5 : Int) < INT64_MAX ∧
    ((sampleEnabled.setExportStreamPositions 5 9).outcome = .ok () ∧
    (sampleEnabled.setExportStreamPositions 5 9).state.wrapperCalls =
      [] ++ [.setBytesUsed 9] ∧
    (((sampleEnabled.setExportStreamPositions 5 9).state.withContext laterContext).insertTuple
        sampleResults 7).2.wrapperCalls =
      [.setBytesUsed 9] ++ [.appendTuple 19 20 5 3000 7 .INSERT] ∧
    (((sampleEnabled.setExportStreamPositions 5 9).state.withContext laterContext).insertTuple
        sampleResults 7).2.reportedSeqNo sampleResults = some (5 + 1) ∧
    (((sampleEnabled.setExportStreamPositions 5 9).state.withContext laterContext).deleteTuple
        sampleResults 7 true).2.wrapperCalls =
      [.setBytesUsed 9] ++ [.appendTuple 19 20 5 3000 7 .DELETE] ∧
    (((sampleEnabled.setExportStreamPositions 5 9).state.withContext laterContext).deleteTuple
        sampleResults 7 true).2.reportedSeqNo sampleResults = some (5 + 1)) :=
  ⟨rfl, rfl, by decide, by decide,
   C5_position_adoption sampleResults sampleEnabled ⟨3, 1, []⟩ rfl rfl 5 (by decide)
     (by decide) 9 laterContext 7 true⟩

/-- C7 fails as stated: a fresh export-enabled table that performed an
`insertTuple` and then rolled it back has produced a record, yet
`setExportStreamPositions` succeeds on it. -/
theorem C7_counterexample :
    sampleAppendedAndUndone =
      run sampleResults (StreamedTable.ctor 64 sampleContext true) [.insertTuple 7, .undo 0] ∧
    Call.insertTuple 7 ∈ [Call.insertTuple 7, Call.undo 0] ∧
    (sampleAppendedAndUndone.setExportStreamPositions 5 9).outcome = .ok () ∧
    (sampleAppendedAndUndone.setExportStreamPositions 5 9).state.m_sequenceNo = 5 := by
  refine ⟨rfl, ?_, rfl, rfl⟩
  simp

/-- C7 (amended): on a table reached from a fresh export-enabled table by a
sequence of insertTuple, deleteTuple, undo and flushOldTuples calls (of fewer
than 2^63 calls, so that the int64 counter cannot reach the end of its range),
`setExportStreamPositions` fails exactly when the number of appends in the
sequence differs from the number of undos (the counter is then non-zero); it
succeeds when the two numbers are equal, even if records were produced. -/
theorem C7_adoption_after_calls (R : WrapperResults Tuple) (addr : Nat) (ctx : ExecutorContext)
    (cs : List (Call Tuple)) (hlen : cs.length < 9223372036854775808) (seqNo : Int)
    (streamBytesUsed : Nat) :
    ((∃ e, ((run R (StreamedTable.ctor addr ctx true) cs).setExportStreamPositions
        seqNo streamBytesUsed).outcome = .error e) ↔ appends cs ≠ undos cs) ∧
    (((run R (StreamedTable.ctor addr ctx true) cs).setExportStreamPositions
        seqNo streamBytesUsed).outcome = .ok () ↔ appends cs = undos cs) := by
  have hc := @ctor_enabled Tuple addr ctx
  have hlo : INT64_MIN + (cs.length : Int) ≤
      (StreamedTable.ctor addr ctx true : StreamedTable Tuple).m_sequenceNo := by
    rw [hc.2.1]; simp only [INT64_MIN]; omega
  have hhi : (StreamedTable.ctor addr ctx true : StreamedTable Tuple).m_sequenceNo +
      (cs.length : Int) ≤ INT64_MAX := by
    rw [hc.2.1]; simp only [INT64_MAX]; omega
  have hrun := run_m_sequenceNo R cs _ hc.1 hlo hhi
  rw [hc.2.1] at hrun
  obtain ⟨w, hw⟩ := Option.isSome_iff_exists.mp (run_isSome R cs _ hc.1)
  have hz : (run R (StreamedTable.ctor addr ctx true) cs).m_sequenceNo = 0 ↔
      appends cs = undos cs := by
    rw [hrun]; omega
  by_cases he : appends cs = undos cs
  · have h0 := hz.mpr he
    simp [StreamedTable.setExportStreamPositions, hw, h0, he]
  · have h0 : ¬ (run R (StreamedTable.ctor addr ctx true) cs).m_sequenceNo = 0 :=
      fun h => he (hz.mp h)
    simp [StreamedTable.setExportStreamPositions, h0, he]

/-- Witness for C7: after an insert and its undo adoption succeeds; after three
appends and no undo it fails. -/
theorem C7_adoption_after_calls_witness :
    ([Call.insertTuple 7, Call.undo 0].length < 9223372036854775808 ∧
      appends [Call.insertTuple 7, Call.undo 0] = undos [Call.insertTuple 7, Call.undo 0] ∧
      ((run sampleResults (StreamedTable.ctor 64 sampleContext true)
        [Call.insertTuple 7, Call.undo 0]).setExportStreamPositions 5 9).outcome = .ok ()) ∧
    (sampleCalls.length < 9223372036854775808 ∧
      appends sampleCalls ≠ undos sampleCalls ∧
      ∃ e, ((run sampleResults (StreamedTable.ctor 64 sampleContext true)
        sampleCalls).setExportStreamPositions 5 9).outcome = .error e) :=
  ⟨⟨by decide, by decide,
    (C7_adoption_after_calls sampleResults 64 sampleContext [Call.insertTuple 7, Call.undo 0]
      (by decide) 5 9).2.2 (by decide)⟩,
   ⟨by decide, by decide,
    (C7_adoption_after_calls sampleResults 64 sampleContext sampleCalls
      (by decide) 5 9).1.2 (by decide)⟩⟩

end voltdb
